import Mathlib

/-!
Shallow embedding of the outreach-automation agent (Python sources under
`agent/`).  Pure data and control flow are translated directly; the two
impure ingredients are made explicit parameters:

* randomness: the Python code calls the module-global `random.random()`
  (a float in `[0,1)`, modelled as a rational draw stream `g : Nat → ℚ`)
  and `random.choice` / `random.randint` (modelled as a natural-number
  draw stream `c : Nat → Nat`, reduced modulo the choice-list length).
  Every call to the random source consumes one position of a shared call
  counter `k`, exactly mirroring the sequence of calls in the source.
* wall-clock time: `time.time()` is a source of its own, independent of
  the random seed — it is modelled as a clock oracle `clock : Nat → ℚ`
  read once per built response dict, with its own call counter `u`.
  `TimedResponse` is the full response dict including the `timestamp`
  field; the campaign-flow claims do not depend on timestamp values, so
  the state machine works on `Response`, the timestamp-erased projection
  (`erase_timestamp` links the two embeddings).  Calendar datetimes
  (`datetime.now()`) are modelled by an explicit `DateTime` structure
  whose `day` field counts days from an epoch that falls on a Monday, so
  that Python's `date.weekday()` is `day % 7`.
-/

/-- A contact record as produced by
`agent/scraper/data_sources.py:find_companies_and_contacts` (the
`contact_info` dict).  `recent_news` and `interests` are the optional
keys added only by `enrich_contact_data`; a missing dict key is `none`. -/
structure Contact where
  company : String
  company_size : String
  industry : String
  website : String
  contact_name : String
  role : String
  email : String
  linkedin_url : String
  recent_news : Option String
  interests : Option (List String)
deriving DecidableEq

/-- A response object as built by
`agent/reply_handler/processor.py:simulate_fetch_responses`: a dict with a
`status` key of `"bounced"`, `"unsubscribed"` or `"replied"` and the
status-specific fields (`reason`, or `content` / `is_out_of_office` /
`is_interested`), without the wall-clock `timestamp` field — see
`TimedResponse` for the full dict and `erase_timestamp` for the
projection. -/
inductive Response where
  | bounced (email reason : String)
  | unsubscribed (email reason : String)
  | replied (email content : String) (is_out_of_office is_interested : Bool)
deriving DecidableEq

/-- The `email` field common to every response dict. -/
def respEmail : Response → String
  | .bounced e _ => e
  | .unsubscribed e _ => e
  | .replied e _ _ _ => e

/-- Whether a response is a reply flagged `is_out_of_office`. -/
def isOOOReply : Response → Bool
  | .replied _ _ ooo _ => ooo
  | _ => false

/-- The in-memory campaign store `campaign_data` of `agent/main.py`
(lines 24-32): the contact list plus six email buckets. -/
structure CampaignData where
  contacts : List Contact
  sent_initial : List String
  bounced : List String
  unsubscribed : List String
  replied : List String
  interested : List String
  meetings_booked : List String
deriving DecidableEq

/-- The initial value of the `campaign_data` store (all lists empty). -/
def campaign_data : CampaignData :=
  { contacts := [], sent_initial := [], bounced := [], unsubscribed := []
    replied := [], interested := [], meetings_booked := [] }

/-! ## `agent/reply_handler/processor.py` -/

/-- The bounce `reason` pool (`random.choice` argument, line 27). -/
def bounce_reasons : List String :=
  ["invalid_email", "mailbox_full", "domain_not_found"]

/-- The fixed out-of-office reply content (line 51). -/
def ooo_content : String :=
  "I\x27m currently out of the office until next week with limited access to email. I\x27ll respond to your message when I return."

/-- The interested reply content pool (`random.choice`, lines 53-57). -/
def interested_contents : List String :=
  ["Thanks for reaching out. This sounds interesting. I\x27d be happy to schedule a call next week to discuss further.",
   "Your email caught my attention. We\x27ve been looking into digital transformation recently. Let\x27s set up a time to chat.",
   "I\x27m interested in learning more about your services. Can you send over some case studies from similar companies in our industry?"]

/-- The non-interested reply content pool (`random.choice`, lines 59-63). -/
def neutral_contents : List String :=
  ["Thanks, but we\x27re not looking for these services at the moment.",
   "We\x27ve recently signed with another provider for this. Perhaps we can connect in the future.",
   "Please remove me from your list. This isn\x27t relevant to our needs right now."]

/-- `random.choice(l)`: one draw of the choice stream selects an index
into the (non-empty) list. -/
def py_choice (c : Nat → Nat) (k : Nat) (l : List String) : String :=
  l.getD (c k % l.length) ""

/-- The loop body of `simulate_fetch_responses` for a single email
address (lines 21-72).  Returns the optional response together with the
advanced random-call counter.  The draws, in source order: bounce check
(`< 0.05`), unsubscribe check (`< 0.03`), reply check (`< 0.1`),
out-of-office check (`< 0.3`), and — only when not out of office, because
Python's `and` short-circuits — the interested check (`< 0.4`); each
taken branch that calls `random.choice` consumes one further draw. -/
def simulate_fetch_one (g : Nat → ℚ) (c : Nat → Nat) (email : String) (k : Nat) :
    Option Response × Nat :=
  if g k < mkRat 5 100 then
    (some (.bounced email (py_choice c (k + 1) bounce_reasons)), k + 2)
  else if g (k + 1) < mkRat 3 100 then
    (some (.unsubscribed email "recipient_request"), k + 2)
  else if g (k + 2) < mkRat 1 10 then
    if g (k + 3) < mkRat 3 10 then
      (some (.replied email ooo_content true false), k + 4)
    else if g (k + 4) < mkRat 4 10 then
      (some (.replied email (py_choice c (k + 5) interested_contents) false true), k + 6)
    else
      (some (.replied email (py_choice c (k + 5) neutral_contents) false false), k + 6)
  else
    (none, k + 3)

/-- `simulate_fetch_responses(email_addresses)` (lines 8-74): the
responses accumulated over the input list, in order, with the final
random-call counter. -/
def simulate_fetch_responses (g : Nat → ℚ) (c : Nat → Nat) (emails : List String) (k : Nat) :
    List Response × Nat :=
  match emails with
  | [] => ([], k)
  | e :: rest =>
    let p := simulate_fetch_one g c e k
    let q := simulate_fetch_responses g c rest p.2
    (match p.1 with
     | none => q.1
     | some r => r :: q.1, q.2)

/-- Whether the `process_responses` loop (lines 93-117) keeps a raw
response: bounces and unsubscribes are kept, replies are kept unless
flagged out-of-office (the `continue` on line 107). -/
def process_one_keep : Response → Bool
  | .bounced _ _ => true
  | .unsubscribed _ _ => true
  | .replied _ _ ooo _ => !ooo

/-- `process_responses(email_addresses)` (lines 76-119): fetch the
simulated responses and drop the out-of-office replies. -/
def process_responses (g : Nat → ℚ) (c : Nat → Nat) (emails : List String) (k : Nat) :
    List Response × Nat :=
  let raw := simulate_fetch_responses g c emails k
  (raw.1.filter process_one_keep, raw.2)

/-- The full response dict including the `"timestamp": time.time()`
field (processor.py lines 28, 38, 71): `Response` plus the wall-clock
value read when the dict is built. -/
inductive TimedResponse where
  | bounced (email reason : String) (timestamp : ℚ)
  | unsubscribed (email reason : String) (timestamp : ℚ)
  | replied (email content : String) (is_out_of_office is_interested : Bool) (timestamp : ℚ)
deriving DecidableEq

/-- Dropping the `timestamp` field of a response dict. -/
def erase_timestamp : TimedResponse → Response
  | .bounced e rn _ => .bounced e rn
  | .unsubscribed e rn _ => .unsubscribed e rn
  | .replied e cnt ooo intr _ => .replied e cnt ooo intr

/-- The loop body of `simulate_fetch_responses` with the `timestamp`
field retained: `clock` is the wall-clock oracle for `time.time()`,
read once per built response dict at its own call counter `u`; the
clock readings are an input independent of the random draw streams. -/
def simulate_fetch_one_timed (g : Nat → ℚ) (c : Nat → Nat) (clock : Nat → ℚ)
    (email : String) (k u : Nat) : Option TimedResponse × Nat × Nat :=
  if g k < mkRat 5 100 then
    (some (.bounced email (py_choice c (k + 1) bounce_reasons) (clock u)), k + 2, u + 1)
  else if g (k + 1) < mkRat 3 100 then
    (some (.unsubscribed email "recipient_request" (clock u)), k + 2, u + 1)
  else if g (k + 2) < mkRat 1 10 then
    if g (k + 3) < mkRat 3 10 then
      (some (.replied email ooo_content true false (clock u)), k + 4, u + 1)
    else if g (k + 4) < mkRat 4 10 then
      (some (.replied email (py_choice c (k + 5) interested_contents) false true (clock u)),
        k + 6, u + 1)
    else
      (some (.replied email (py_choice c (k + 5) neutral_contents) false false (clock u)),
        k + 6, u + 1)
  else
    (none, k + 3, u)

/-- `simulate_fetch_responses(email_addresses)` with timestamps
retained, threading the random counter and the clock counter. -/
def simulate_fetch_responses_timed (g : Nat → ℚ) (c : Nat → Nat) (clock : Nat → ℚ)
    (emails : List String) (k u : Nat) : List TimedResponse × Nat × Nat :=
  match emails with
  | [] => ([], k, u)
  | e :: rest =>
    let p := simulate_fetch_one_timed g c clock e k u
    let q := simulate_fetch_responses_timed g c clock rest p.2.1 p.2.2
    (match p.1 with
     | none => q.1
     | some r => r :: q.1, q.2)

/-- The keep test of the `process_responses` loop on timestamped
responses (same branches as `process_one_keep`). -/
def process_one_keep_timed : TimedResponse → Bool
  | .bounced _ _ _ => true
  | .unsubscribed _ _ _ => true
  | .replied _ _ ooo _ _ => !ooo

/-- `process_responses(email_addresses)` with timestamps retained. -/
def process_responses_timed (g : Nat → ℚ) (c : Nat → Nat) (clock : Nat → ℚ)
    (emails : List String) (k u : Nat) : List TimedResponse × Nat × Nat :=
  let raw := simulate_fetch_responses_timed g c clock emails k u
  (raw.1.filter process_one_keep_timed, raw.2)

/-! ## `agent/main.py` -/

/-- Result of the `check_responses` handling loop: the updated store, the
log of `notify_on_interest` invocations, the log of `book_meeting`
invocations (one entry per call, in order), and the advanced
booking-oracle counter. -/
structure HandleResult where
  state : CampaignData
  notified : List String
  book_calls : List String
  book_j : Nat
deriving DecidableEq

/-- The response-handling loop of `check_responses` (`agent/main.py`
lines 112-128).  `book : Nat → Bool` is the outcome oracle for the
`book_meeting` collaborator (its result depends on wall-clock time and
its own random draws, so it is abstracted by the call index `j`);
`notify_on_interest` always runs before `book_meeting` in the interested
branch, and `meetings_booked` is appended only when booking succeeds. -/
def handle_responses (book : Nat → Bool) (s : CampaignData) (rs : List Response) (j : Nat) :
    HandleResult :=
  match rs with
  | [] => ⟨s, [], [], j⟩
  | .bounced e _ :: rest =>
    handle_responses book { s with bounced := s.bounced ++ [e] } rest j
  | .unsubscribed e _ :: rest =>
    handle_responses book { s with unsubscribed := s.unsubscribed ++ [e] } rest j
  | .replied e _cnt _ooo intr :: rest =>
    if intr then
      let s1 := { s with replied := s.replied ++ [e], interested := s.interested ++ [e] }
      let s2 := if book j then { s1 with meetings_booked := s1.meetings_booked ++ [e] } else s1
      let h := handle_responses book s2 rest (j + 1)
      ⟨h.state, e :: h.notified, e :: h.book_calls, h.book_j⟩
    else
      handle_responses book { s with replied := s.replied ++ [e] } rest j

/-- Result of one `check_responses` invocation: the handling result plus
the advanced random-call counter. -/
structure CheckResult where
  state : CampaignData
  notified : List String
  book_calls : List String
  rand_k : Nat
  book_j : Nat
deriving DecidableEq

/-- `check_responses()` (`agent/main.py` lines 108-128): process the
simulated responses for the full `sent_initial` list of the store, then
run the handling loop. -/
def check_responses (g : Nat → ℚ) (c : Nat → Nat) (book : Nat → Bool)
    (s : CampaignData) (k j : Nat) : CheckResult :=
  let pr := process_responses g c s.sent_initial k
  let h := handle_responses book s pr.1 j
  ⟨h.state, h.notified, h.book_calls, pr.2, h.book_j⟩

/-- The `eligible_contacts` list computed by `day3_followup`
(`agent/main.py` lines 83-88): contacts whose email is in none of the
`bounced`, `unsubscribed`, `replied` buckets. -/
def day3_followup_eligible (s : CampaignData) : List Contact :=
  s.contacts.filter fun ct =>
    decide (ct.email ∉ s.bounced) && decide (ct.email ∉ s.unsubscribed) &&
      decide (ct.email ∉ s.replied)

/-- The `eligible_contacts` list computed by `day4_personalized`
(`agent/main.py` lines 98-103); the filter is textually identical to the
day-3 one. -/
def day4_personalized_eligible (s : CampaignData) : List Contact :=
  s.contacts.filter fun ct =>
    decide (ct.email ∉ s.bounced) && decide (ct.email ∉ s.unsubscribed) &&
      decide (ct.email ∉ s.replied)

/-- The containment invariant over the store's buckets:
`meetings_booked ⊆ interested ⊆ replied`. -/
def campaign_inv (s : CampaignData) : Prop :=
  (∀ e ∈ s.meetings_booked, e ∈ s.interested) ∧ ∀ e ∈ s.interested, e ∈ s.replied

/-! ## `agent/scraper/data_sources.py` -/

/-- Python's `needle in hay` substring test on lists of characters. -/
def charSub (needle : List Char) : List Char → Bool
  | [] => needle.isEmpty
  | h :: t => needle.isPrefixOf (h :: t) || charSub needle t

/-- `str.lower()` on the character list of a string. -/
def py_lower (s : String) : List Char :=
  s.data.map Char.toLower

/-- The case-insensitive containment tests of
`find_companies_and_contacts`: `needle.lower() in hay.lower()` (the
source lowercases the needle where it is not already a lowercase
literal, so lowering both sides is exact). -/
def py_in (needle hay : String) : Bool :=
  charSub (py_lower needle) (py_lower hay)

/-- An entry of a company's `contacts` list in the mock data
(`agent/scraper/data_sources.py` lines 25-110). -/
structure RawContact where
  name : String
  role : String
  email : String
  linkedin_url : String
deriving DecidableEq

/-- A company record of the mock data. -/
structure Company where
  company : String
  industry : String
  website : String
  size : String
  contacts : List RawContact
deriving DecidableEq

/-- The `manufacturing_companies` mock data (lines 25-66). -/
def manufacturing_companies : List Company :=
  [{ company := "Aussie Manufacturing Co", industry := "Manufacturing",
     website := "www.aussiemfg.com.au", size := "50-200 employees",
     contacts :=
       [{ name := "John Doe", role := "CFO", email := "john.doe@example.com",
          linkedin_url := "linkedin.com/in/johndoe" },
        { name := "Sarah Wilson", role := "Head of Digital Transformation",
          email := "sarah.wilson@example.com", linkedin_url := "linkedin.com/in/sarahwilson" }] },
   { company := "Melbourne Industrial Solutions", industry := "Manufacturing",
     website := "www.melbourneindustrial.com.au", size := "200-500 employees",
     contacts :=
       [{ name := "Michael Chen", role := "CFO", email := "m.chen@example.com",
          linkedin_url := "linkedin.com/in/michaelchen" },
        { name := "Jessica Taylor", role := "Digital Transformation Lead",
          email := "j.taylor@example.com", linkedin_url := "linkedin.com/in/jtaylor" }] }]

/-- The `construction_companies` mock data (lines 69-110). -/
def construction_companies : List Company :=
  [{ company := "BuildRight Constructions", industry := "Construction",
     website := "www.buildright.com.au", size := "100-250 employees",
     contacts :=
       [{ name := "David Thompson", role := "CFO", email := "d.thompson@example.com",
          linkedin_url := "linkedin.com/in/davidthompson" },
        { name := "Jane Smith", role := "Digital Transformation Lead",
          email := "jane.smith@example.com", linkedin_url := "linkedin.com/in/janesmith" }] },
   { company := "Sydney Builders Group", industry := "Construction",
     website := "www.sydneybuilders.com.au", size := "500-1000 employees",
     contacts :=
       [{ name := "Robert Johnson", role := "CFO", email := "r.johnson@example.com",
          linkedin_url := "linkedin.com/in/robertjohnson" },
        { name := "Emma Davis", role := "Head of Digital Transformation",
          email := "emma.davis@example.com", linkedin_url := "linkedin.com/in/emmadavis" }] }]

/-- `find_companies_and_contacts(industry_keywords, region, target_roles)`
(lines 7-144).  The `region` argument is accepted but never used by the
source.  A contact passes the role filter when `target_roles` is `None`
(absent) or some requested role is a case-insensitive substring of the
contact's role; passing contacts are formatted into `Contact` records. -/
def find_companies_and_contacts (industry_keywords region : String)
    (target_roles : Option (List String)) : List Contact :=
  let _ := region
  let all_companies :=
    (if py_in "manufacturing" industry_keywords then manufacturing_companies else []) ++
      (if py_in "construction" industry_keywords then construction_companies else [])
  all_companies.flatMap fun company =>
    (company.contacts.filter fun ct =>
      match target_roles with
      | none => true
      | some roles => roles.any fun role => py_in role ct.role).map fun ct =>
      { company := company.company, company_size := company.size
        industry := company.industry, website := company.website
        contact_name := ct.name, role := ct.role, email := ct.email
        linkedin_url := ct.linkedin_url, recent_news := none, interests := none }

/-! ## `agent/emailing/sender.py` -/

/-- The rendered `"initial"` template (`TEMPLATES["initial"]`, lines
11-23) after substituting the contact fields. -/
def render_initial (company industry contact_name recent_news : String) : String :=
  "\nSubject: Modernizing " ++ industry ++ " Operations at " ++ company ++
    "\n\nHi " ++ contact_name ++ ",\n\nI noticed " ++ company ++ " " ++ recent_news ++
    ". At Matherson and Sons, we specialize in helping " ++ industry ++
    " companies like yours optimize operations through digital transformation.\n\nWould you be open to a 15-minute chat about how we\x27ve helped similar " ++
    industry ++ " companies achieve 30%+ operational efficiency gains?\n\nBest,\nAlex Matherson\nMatherson and Sons\n"

/-- The rendered `"followup"` template (lines 25-39). -/
def render_followup (company company_size industry contact_name : String) : String :=
  "\nSubject: Re: Modernizing " ++ industry ++ " Operations at " ++ company ++
    "\n\nHi " ++ contact_name ++ ",\n\nI wanted to follow up on my previous email about helping " ++
    company ++ " optimize operations through strategic digital transformation.\n\nMany " ++
    industry ++ " companies we work with were initially hesitant until they saw our case studies. I\x27d be happy to share how we helped a " ++
    company_size ++ " " ++ industry ++
    " company achieve significant ROI within 6 months.\n\nWould you have 15 minutes this week for a quick call?\n\nBest,\nAlex Matherson\nMatherson and Sons\n"

/-- The rendered `"personalized"` template (lines 41-55); `interest0` is
`interests[0]`. -/
def render_personalized (company industry contact_name role interest0 : String) : String :=
  "\nSubject: Your LinkedIn post on " ++ interest0 ++ "\n\nHi " ++ contact_name ++
    ",\n\nI noticed your recent LinkedIn activity around " ++ interest0 ++
    ", and it resonated with the work we\x27re doing at Matherson and Sons.\n\nGiven your role as " ++
    role ++ " at " ++ company ++ ", I thought you might be interested in how we\x27re helping " ++
    industry ++ " companies implement " ++ interest0 ++
    " solutions that deliver measurable ROI.\n\nI have a specific idea for " ++ company ++
    " based on your recent initiatives. Would you be open to a brief discussion?\n\nBest,\nAlex Matherson\nMatherson and Sons\n"

/-- `format_email_from_template(template_name, contact_data)`
(`agent/emailing/sender.py` lines 79-102).  An unregistered name raises
`ValueError(f"Unknown template: ...")`; a missing `recent_news` defaults
to `"is in the <industry> sector"` and missing `interests` defaults to
`["digital transformation"]` (lines 94-99).  Indexing `interests[0]` on a
present-but-empty list raises Python's `IndexError`, modelled as the
`"list index out of range"` error. -/
def format_email_from_template (template_name : String) (contact : Contact) :
    Except String String :=
  let recent_news := contact.recent_news.getD ("is in the " ++ contact.industry ++ " sector")
  let interests := contact.interests.getD ["digital transformation"]
  if template_name = "initial" then
    .ok (render_initial contact.company contact.industry contact.contact_name recent_news)
  else if template_name = "followup" then
    .ok (render_followup contact.company contact.company_size contact.industry
      contact.contact_name)
  else if template_name = "personalized" then
    match interests with
    | i0 :: _ =>
      .ok (render_personalized contact.company contact.industry contact.contact_name
        contact.role i0)
    | [] => .error "list index out of range"
  else
    .error ("Unknown template: " ++ template_name)

/-- `simulate_hubspot_api_call(endpoint, data)` (lines 58-77): returns a
fresh id drawn by `random.randint(10000, 99999)` (one draw of the
natural-number stream) and always reports `"success"`; the `endpoint`
and `data` payload are ignored by the simulation. -/
def simulate_hubspot_api_call (idg : Nat → Nat) (k : Nat) : Nat × Nat :=
  (10000 + idg k % 90000, k + 1)

/-- `send_initial_emails(contacts)` (lines 104-134): renders the
`"initial"` template for each contact (total for registered templates),
sends via the simulated API — which always succeeds — and collects the
returned ids, one per contact, unconditionally. -/
def send_initial_emails (idg : Nat → Nat) (contacts : List Contact) (k : Nat) :
    List Nat × Nat :=
  match contacts with
  | [] => ([], k)
  | ct :: rest =>
    let _email_content := format_email_from_template "initial" ct
    let p := simulate_hubspot_api_call idg k
    let q := send_initial_emails idg rest p.2
    (p.1 :: q.1, q.2)

/-- `send_followup_emails(contacts)` (lines 136-167): identical shape to
the initial sender, using the `"followup"` template; no contact is
skipped for any reason. -/
def send_followup_emails (idg : Nat → Nat) (contacts : List Contact) (k : Nat) :
    List Nat × Nat :=
  match contacts with
  | [] => ([], k)
  | ct :: rest =>
    let _email_content := format_email_from_template "followup" ct
    let p := simulate_hubspot_api_call idg k
    let q := send_followup_emails idg rest p.2
    (p.1 :: q.1, q.2)

/-! ## `agent/calendar/booker.py` -/

/-- A naive datetime: `day` counts whole days from an epoch falling on a
Monday (so Python's `date.weekday()` is `day % 7`), plus
hour/minute/second within the day. -/
structure DateTime where
  day : Nat
  hour : Nat
  minute : Nat
  second : Nat
deriving DecidableEq

/-- Python's `date.weekday()`: 0 = Monday … 6 = Sunday. -/
def DateTime.weekday (d : DateTime) : Nat := d.day % 7

/-- Total minutes since the epoch (seconds ignored). -/
def DateTime.toMinutes (d : DateTime) : Nat := d.day * 1440 + d.hour * 60 + d.minute

/-- `+ timedelta(minutes=m)`, normalising minute and hour carries. -/
def DateTime.addMinutes (d : DateTime) (m : Nat) : DateTime :=
  let total := d.toMinutes + m
  { day := total / 1440, hour := total % 1440 / 60, minute := total % 60, second := d.second }

/-- A meeting slot as built by `find_available_slots` (lines 77-81); the
`id` abstracts the `strftime`-formatted slot id. -/
structure Slot where
  start_time : DateTime
  end_time : DateTime
  id : String
deriving DecidableEq

/-- Python's `range(a, b, s)` for a positive step (`range` raises on a
zero step; the source only uses positive steps). -/
def pyRange (a b s : Nat) : List Nat :=
  if s = 0 then [] else List.range' a ((b - a + s - 1) / s) s

/-- The slot dict appended for an available `slot_time` (lines 77-81):
start at the slot time, end 30 minutes later. -/
def mk_slot (st : DateTime) : Slot :=
  { start_time := st, end_time := st.addMinutes 30
    id := "slot_" ++ toString st.day ++ "_" ++ toString st.hour }

/-- The inner hour loop of `find_available_slots` (lines 69-81) for one
eligible date: each candidate hour consumes one availability draw
(`random.random() > 0.3`) and the available ones are appended. -/
def slots_for_day (g : Nat → ℚ) (date : DateTime) (hours : List Nat) (k : Nat) :
    List Slot × Nat :=
  match hours with
  | [] => ([], k)
  | h :: rest =>
    let slot_time : DateTime := { date with hour := h, minute := 0, second := 0 }
    let avail := mkRat 3 10 < g k
    let q := slots_for_day g date rest (k + 1)
    ((if avail then mk_slot slot_time :: q.1 else q.1), q.2)

/-- The outer day loop of `find_available_slots` (lines 61-81): weekend
dates (`weekday() >= 5`) are skipped before any draw is consumed. -/
def slots_loop (g : Nat → ℚ) (now : DateTime) (days : List Nat) (daily_slots : Nat)
    (k : Nat) : List Slot × Nat :=
  match days with
  | [] => ([], k)
  | d :: rest =>
    let date : DateTime := { now with day := now.day + d }
    if 5 ≤ date.weekday then slots_loop g now rest daily_slots k
    else
      let p := slots_for_day g date (pyRange 9 17 (8 / daily_slots)) k
      let q := slots_loop g now rest daily_slots p.2
      (p.1 ++ q.1, q.2)

/-- `find_available_slots(days_ahead=7, daily_slots=3)` (lines 43-83):
slots over days `1 .. days_ahead`, candidate hours
`range(9, 17, 8 // daily_slots)`. -/
def find_available_slots (g : Nat → ℚ) (now : DateTime) (days_ahead : Nat := 7)
    (daily_slots : Nat := 3) : List Slot :=
  (slots_loop g now (pyRange 1 (days_ahead + 1) 1) daily_slots 0).1

/-! ## Concrete scenarios

Closed runs of the embedded operations on explicit inputs, used to
evaluate the code at specific random draws. -/

/-- A concrete contact (the first mock contact, formatted). -/
def demo_contact : Contact :=
  { company := "Aussie Manufacturing Co", company_size := "50-200 employees"
    industry := "Manufacturing", website := "www.aussiemfg.com.au"
    contact_name := "John Doe", role := "CFO", email := "john.doe@example.com"
    linkedin_url := "linkedin.com/in/johndoe", recent_news := none, interests := none }

/-- A draw stream with period 6 that makes every classification pass
produce an interested (non-out-of-office) reply: the bounce draw (1/2)
and unsubscribe draw (1/2) fail, the reply draw (1/20) succeeds, the
out-of-office draw (1/2) fails, the interested draw (1/5) succeeds, and
the content-choice draw is the final slot. -/
def reply_stream : Nat → ℚ :=
  fun k => [mkRat 1 2, mkRat 1 2, mkRat 1 20, mkRat 1 2, mkRat 1 5, 0].getD (k % 6) 0

/-- A draw stream with period 4 that makes every classification pass
produce an out-of-office reply: bounce (1/2) and unsubscribe (1/2)
draws fail, the reply draw (1/20) succeeds and the out-of-office draw
(1/5) succeeds. -/
def ooo_stream : Nat → ℚ :=
  fun k => [mkRat 1 2, mkRat 1 2, mkRat 1 20, mkRat 1 5].getD (k % 4) 0

/-- A campaign store holding one contact whose initial email was sent. -/
def one_contact_state : CampaignData :=
  { campaign_data with contacts := [demo_contact], sent_initial := ["john.doe@example.com"] }

/-- First invocation of the response check on the one-contact store
(booking oracle always failing, so the contact stays interested). -/
def check_run1 : CheckResult :=
  check_responses reply_stream (fun _ => 0) (fun _ => false) one_contact_state 0 0

/-- Second invocation of the response check, continuing from the state
and counters left by the first. -/
def check_run2 : CheckResult :=
  check_responses reply_stream (fun _ => 0) (fun _ => false) check_run1.state
    check_run1.rand_k check_run1.book_j

/-- First call of the follow-up sender on a one-contact list. -/
def followup_send_first : List Nat × Nat :=
  send_followup_emails (fun _ => 0) [demo_contact] 0

/-- Second call of the follow-up sender on the same contact list,
continuing from the id-draw counter left by the first call. -/
def followup_send_second : List Nat × Nat :=
  send_followup_emails (fun _ => 0) [demo_contact] followup_send_first.2

/-! ## Helper lemmas -/

@[simp] theorem respEmail_bounced (e rn : String) : respEmail (.bounced e rn) = e := rfl

@[simp] theorem respEmail_unsubscribed (e rn : String) : respEmail (.unsubscribed e rn) = e := rfl

@[simp] theorem respEmail_replied (e cnt : String) (o i : Bool) : respEmail (.replied e cnt o i) = e := rfl

/-- A simulated response carries the email address it was drawn for. -/
theorem simulate_fetch_one_email_eq {g : Nat → ℚ} {c : Nat → Nat} {e : String} {k : Nat}
    {r : Response} (h : (simulate_fetch_one g c e k).1 = some r) : respEmail r = e := by
  by_cases h1 : g k < mkRat 5 100
  · simp [simulate_fetch_one, h1] at h
    subst h; rfl
  · by_cases h2 : g (k + 1) < mkRat 3 100
    · simp [simulate_fetch_one, h1, h2] at h
      subst h; rfl
    · by_cases h3 : g (k + 2) < mkRat 1 10
      · by_cases h4 : g (k + 3) < mkRat 3 10
        · simp [simulate_fetch_one, h1, h2, h3, h4] at h
          subst h; rfl
        · by_cases h5 : g (k + 4) < mkRat 4 10
          · simp [simulate_fetch_one, h1, h2, h3, h4, h5] at h
            subst h; rfl
          · simp [simulate_fetch_one, h1, h2, h3, h4, h5] at h
            subst h; rfl
      · simp [simulate_fetch_one, h1, h2, h3] at h

/-- Each email contributes at most one response per fetching pass. -/
theorem simulate_countP_le (g : Nat → ℚ) (c : Nat → Nat) (emails : List String)
    (k : Nat) (e : String) :
    (simulate_fetch_responses g c emails k).1.countP (fun r => respEmail r == e)
      ≤ emails.count e := by
  induction emails generalizing k with
  | nil => simp [simulate_fetch_responses]
  | cons e0 rest ih =>
    simp only [simulate_fetch_responses]
    cases h : (simulate_fetch_one g c e0 k).1 with
    | none =>
      simp only [List.count_cons]
      exact le_trans (ih _) (by omega)
    | some r =>
      have he : respEmail r = e0 := simulate_fetch_one_email_eq h
      simp only [List.countP_cons, List.count_cons, he]
      have := ih (simulate_fetch_one g c e0 k).2
      by_cases hb : (e0 == e) = true <;> simp [hb] <;> omega

/-- Membership in the processed responses comes from a kept raw response. -/
theorem process_mem_keep {g : Nat → ℚ} {c : Nat → Nat} {emails : List String} {k : Nat}
    {r : Response} (h : r ∈ (process_responses g c emails k).1) :
    r ∈ (simulate_fetch_responses g c emails k).1 ∧ process_one_keep r = true := by
  simpa [process_responses, List.mem_filter] using h

/-- The keep test of the processing loop is exactly the non-out-of-office
test. -/
theorem process_one_keep_eq (r : Response) : process_one_keep r = !isOOOReply r := by
  cases r <;> rfl

/-- Filtering only lowers the per-email response count. -/
theorem process_countP_le (g : Nat → ℚ) (c : Nat → Nat) (emails : List String)
    (k : Nat) (e : String) :
    (process_responses g c emails k).1.countP (fun r => respEmail r == e)
      ≤ (simulate_fetch_responses g c emails k).1.countP (fun r => respEmail r == e) := by
  simp only [process_responses]
  exact List.Sublist.countP_le _ (List.filter_sublist _)

/-- The handling loop never touches the contact list or the
`sent_initial` bucket. -/
theorem handle_contacts_sent_eq (book : Nat → Bool) (s : CampaignData)
    (rs : List Response) (j : Nat) :
    (handle_responses book s rs j).state.contacts = s.contacts
    ∧ (handle_responses book s rs j).state.sent_initial = s.sent_initial := by
  induction rs generalizing s j with
  | nil => simp [handle_responses]
  | cons r rest ih =>
    cases r with
    | bounced e rn => simpa [handle_responses] using ih _ _
    | unsubscribed e rn => simpa [handle_responses] using ih _ _
    | replied e cnt ooo intr =>
      by_cases hi : intr = true
      · by_cases hb : book j = true <;>
          simpa [handle_responses, hi, hb] using ih _ _
      · simpa [handle_responses, hi] using ih _ _

/-- For an email mentioned by none of the handled responses, membership
in each of the five status buckets is unchanged by the handling loop. -/
theorem handle_unmentioned_email (book : Nat → Bool) (s : CampaignData)
    (rs : List Response) (j : Nat) (e : String)
    (he : ∀ r ∈ rs, respEmail r ≠ e) :
    ((e ∈ (handle_responses book s rs j).state.bounced ↔ e ∈ s.bounced)
    ∧ (e ∈ (handle_responses book s rs j).state.unsubscribed ↔ e ∈ s.unsubscribed)
    ∧ (e ∈ (handle_responses book s rs j).state.replied ↔ e ∈ s.replied)
    ∧ (e ∈ (handle_responses book s rs j).state.interested ↔ e ∈ s.interested)
    ∧ (e ∈ (handle_responses book s rs j).state.meetings_booked ↔ e ∈ s.meetings_booked)) := by
  induction rs generalizing s j with
  | nil => simp [handle_responses]
  | cons r rest ih =>
    have hr : respEmail r ≠ e := he r (List.mem_cons_self r rest)
    have hrest : ∀ r ∈ rest, respEmail r ≠ e := fun r hm => he r (List.mem_cons_of_mem _ hm)
    cases r with
    | bounced e0 rn =>
      have hne : e ≠ e0 := fun hh => hr hh.symm
      have hmem : ∀ l : List String, e ∈ l ++ [e0] ↔ e ∈ l := by
        intro l; simp [List.mem_append, hne]
      obtain ⟨i1, i2, i3, i4, i5⟩ := ih { s with bounced := s.bounced ++ [e0] } j hrest
      simp only [handle_responses]
      exact ⟨i1.trans (hmem _), i2, i3, i4, i5⟩
    | unsubscribed e0 rn =>
      have hne : e ≠ e0 := fun hh => hr hh.symm
      have hmem : ∀ l : List String, e ∈ l ++ [e0] ↔ e ∈ l := by
        intro l; simp [List.mem_append, hne]
      obtain ⟨i1, i2, i3, i4, i5⟩ := ih { s with unsubscribed := s.unsubscribed ++ [e0] } j hrest
      simp only [handle_responses]
      exact ⟨i1, i2.trans (hmem _), i3, i4, i5⟩
    | replied e0 cnt ooo intr =>
      have hne : e ≠ e0 := fun hh => hr hh.symm
      have hmem : ∀ l : List String, e ∈ l ++ [e0] ↔ e ∈ l := by
        intro l; simp [List.mem_append, hne]
      by_cases hi : intr = true
      · by_cases hb : book j = true
        · obtain ⟨i1, i2, i3, i4, i5⟩ := ih
            { s with replied := s.replied ++ [e0], interested := s.interested ++ [e0],
                     meetings_booked := s.meetings_booked ++ [e0] } (j + 1) hrest
          simp only [handle_responses, hi, hb, if_true]
          exact ⟨i1, i2, i3.trans (hmem _), i4.trans (hmem _), i5.trans (hmem _)⟩
        · obtain ⟨i1, i2, i3, i4, i5⟩ := ih
            { s with replied := s.replied ++ [e0], interested := s.interested ++ [e0] }
            (j + 1) hrest
          simp only [handle_responses, hi, hb, if_true, if_false]
          exact ⟨i1, i2, i3.trans (hmem _), i4.trans (hmem _), i5⟩
      · obtain ⟨i1, i2, i3, i4, i5⟩ := ih { s with replied := s.replied ++ [e0] } j hrest
        simp only [handle_responses, hi, if_false]
        exact ⟨i1, i2, i3.trans (hmem _), i4, i5⟩

/-- Per handling pass, the notification log, the booking-call log and the
growth of the `interested` bucket are all bounded by the number of
responses carrying the given email. -/
theorem handle_counts_le (book : Nat → Bool) (s : CampaignData) (rs : List Response)
    (j : Nat) (e : String) :
    ((handle_responses book s rs j).notified.count e
        ≤ rs.countP (fun r => respEmail r == e)
    ∧ (handle_responses book s rs j).book_calls.count e
        ≤ rs.countP (fun r => respEmail r == e)
    ∧ (handle_responses book s rs j).state.interested.count e
        ≤ s.interested.count e + rs.countP (fun r => respEmail r == e)) := by
  induction rs generalizing s j with
  | nil => simp [handle_responses]
  | cons r rest ih =>
    cases r with
    | bounced e0 rn =>
      obtain ⟨ih1, ih2, ih3⟩ := ih ({ s with bounced := s.bounced ++ [e0] }) j
      simp only [] at ih3
      simp only [handle_responses, List.countP_cons, respEmail_bounced]
      refine ⟨le_trans ih1 (by omega), le_trans ih2 (by omega), le_trans ih3 (by omega)⟩
    | unsubscribed e0 rn =>
      obtain ⟨ih1, ih2, ih3⟩ := ih ({ s with unsubscribed := s.unsubscribed ++ [e0] }) j
      simp only [] at ih3
      simp only [handle_responses, List.countP_cons, respEmail_unsubscribed]
      refine ⟨le_trans ih1 (by omega), le_trans ih2 (by omega), le_trans ih3 (by omega)⟩
    | replied e0 cnt ooo intr =>
      by_cases hi : intr = true
      · have key : ∀ s2 : CampaignData,
            s2.interested = s.interested ++ [e0] →
            ((handle_responses book s2 rest (j + 1)).notified.count e
                ≤ rest.countP (fun r => respEmail r == e)
            ∧ (handle_responses book s2 rest (j + 1)).book_calls.count e
                ≤ rest.countP (fun r => respEmail r == e)
            ∧ (handle_responses book s2 rest (j + 1)).state.interested.count e
                ≤ s.interested.count e + (if e0 == e then 1 else 0)
                    + rest.countP (fun r => respEmail r == e)) := by
          intro s2 hs2
          obtain ⟨ih1, ih2, ih3⟩ := ih s2 (j + 1)
          rw [hs2] at ih3
          refine ⟨ih1, ih2, le_trans ih3 ?_⟩
          rw [List.count_append]
          simp only [List.count_cons, List.count_nil]
          omega
        by_cases hb : book j = true
        · obtain ⟨k1, k2, k3⟩ := key
            { s with replied := s.replied ++ [e0], interested := s.interested ++ [e0],
                     meetings_booked := s.meetings_booked ++ [e0] } rfl
          simp only [handle_responses, hi, if_true]
          rw [if_pos hb]
          simp only [List.countP_cons, List.count_cons, respEmail_replied]
          refine ⟨?_, ?_, ?_⟩ <;> omega
        · obtain ⟨k1, k2, k3⟩ := key
            { s with replied := s.replied ++ [e0], interested := s.interested ++ [e0] } rfl
          simp only [handle_responses, hi, if_true]
          rw [if_neg hb]
          simp only [List.countP_cons, List.count_cons, respEmail_replied]
          refine ⟨?_, ?_, ?_⟩ <;> omega
      · obtain ⟨ih1, ih2, ih3⟩ := ih ({ s with replied := s.replied ++ [e0] }) j
        simp only [] at ih3
        simp only [handle_responses, hi, if_false, List.countP_cons, respEmail_replied]
        refine ⟨le_trans ih1 (by omega), le_trans ih2 (by omega), le_trans ih3 (by omega)⟩

/-- The handling loop preserves the bucket-containment invariant. -/
theorem handle_preserves_inv (book : Nat → Bool) (s : CampaignData) (rs : List Response)
    (j : Nat) (h : campaign_inv s) :
    campaign_inv (handle_responses book s rs j).state := by
  induction rs generalizing s j with
  | nil => simpa [handle_responses] using h
  | cons r rest ih =>
    cases r with
    | bounced e0 rn => exact ih _ _ h
    | unsubscribed e0 rn => exact ih _ _ h
    | replied e0 cnt ooo intr =>
      by_cases hi : intr = true
      · by_cases hb : book j = true
        · have hinv2 : campaign_inv
              { s with replied := s.replied ++ [e0], interested := s.interested ++ [e0],
                       meetings_booked := s.meetings_booked ++ [e0] } := by
            constructor
            · intro x hx
              rcases List.mem_append.mp hx with hx | hx
              · exact List.mem_append_left _ (h.1 x hx)
              · exact List.mem_append_right _ hx
            · intro x hx
              rcases List.mem_append.mp hx with hx | hx
              · exact List.mem_append_left _ (h.2 x hx)
              · exact List.mem_append_right _ hx
          have hrec := ih
            ({ s with replied := s.replied ++ [e0], interested := s.interested ++ [e0],
                      meetings_booked := s.meetings_booked ++ [e0] }) (j + 1) hinv2
          simp only [handle_responses, hi, if_true]
          rw [if_pos hb]
          exact hrec
        · have hinv1 : campaign_inv
              { s with replied := s.replied ++ [e0], interested := s.interested ++ [e0] } := by
            constructor
            · intro x hx
              exact List.mem_append_left _ (h.1 x hx)
            · intro x hx
              rcases List.mem_append.mp hx with hx | hx
              · exact List.mem_append_left _ (h.2 x hx)
              · exact List.mem_append_right _ hx
          have hrec := ih
            ({ s with replied := s.replied ++ [e0], interested := s.interested ++ [e0] })
            (j + 1) hinv1
          simp only [handle_responses, hi, if_true]
          rw [if_neg hb]
          exact hrec
      · have hinv1 : campaign_inv { s with replied := s.replied ++ [e0] } :=
          ⟨h.1, fun x hx => List.mem_append_left _ (h.2 x hx)⟩
        have hrec := ih ({ s with replied := s.replied ++ [e0] }) j hinv1
        simp only [handle_responses, hi, if_false]
        exact hrec

/-! ## Claim theorems -/

/-- C2: for every email address and every draw sequence, one
classification call yields at most one outcome (the result is a single
`Option Response`), and the checks are evaluated in the precedence
bounce, then unsubscribe, then reply: a successful bounce draw yields a
bounce and nothing else, a successful unsubscribe draw (after a failed
bounce draw) yields an unsubscribe and nothing else, a successful reply
draw (after both failed) yields a reply, and otherwise there is no
outcome. -/
theorem simulate_fetch_one_precedence (g : Nat → ℚ) (c : Nat → Nat) (e : String) (k : Nat) :
    (g k < mkRat 5 100 →
      ∃ reason, (simulate_fetch_one g c e k).1 = some (.bounced e reason))
    ∧ (¬ g k < mkRat 5 100 → g (k + 1) < mkRat 3 100 →
      (simulate_fetch_one g c e k).1 = some (.unsubscribed e "recipient_request"))
    ∧ (¬ g k < mkRat 5 100 → ¬ g (k + 1) < mkRat 3 100 → g (k + 2) < mkRat 1 10 →
      ∃ content ooo intr, (simulate_fetch_one g c e k).1 = some (.replied e content ooo intr))
    ∧ (¬ g k < mkRat 5 100 → ¬ g (k + 1) < mkRat 3 100 → ¬ g (k + 2) < mkRat 1 10 →
      (simulate_fetch_one g c e k).1 = none) := by
  refine ⟨fun h1 => ⟨py_choice c (k + 1) bounce_reasons, by simp [simulate_fetch_one, h1]⟩,
    fun h1 h2 => by simp [simulate_fetch_one, h1, h2],
    fun h1 h2 h3 => ?_,
    fun h1 h2 h3 => by simp [simulate_fetch_one, h1, h2, h3]⟩
  by_cases h4 : g (k + 3) < mkRat 3 10
  · exact ⟨ooo_content, true, false, by simp [simulate_fetch_one, h1, h2, h3, h4]⟩
  · by_cases h5 : g (k + 4) < mkRat 4 10
    · exact ⟨py_choice c (k + 5) interested_contents, false, true,
        by simp [simulate_fetch_one, h1, h2, h3, h4, h5]⟩
    · exact ⟨py_choice c (k + 5) neutral_contents, false, false,
        by simp [simulate_fetch_one, h1, h2, h3, h4, h5]⟩

/-- Witness for C2: with an all-zero float stream the bounce draw
succeeds and the call classifies the contact as bounced. -/
theorem simulate_fetch_one_precedence_witness :
    ∃ reason, (simulate_fetch_one (fun _ => 0) (fun _ => 0) "a@b.com" 0).1
      = some (.bounced "a@b.com" reason) :=
  (simulate_fetch_one_precedence (fun _ => 0) (fun _ => 0) "a@b.com" 0).1 (by decide)

/-- C3: in every campaign state, a contact whose email is recorded in
the `bounced` or `unsubscribed` bucket is excluded from the eligible
lists computed by the day-3 follow-up stage and the day-4 personalized
stage, hence receives no send at those stages. -/
theorem bounced_unsubscribed_never_eligible (s : CampaignData) (ct : Contact)
    (h : ct.email ∈ s.bounced ∨ ct.email ∈ s.unsubscribed) :
    ct ∉ day3_followup_eligible s ∧ ct ∉ day4_personalized_eligible s := by
  constructor <;> intro hm
  · rw [day3_followup_eligible, List.mem_filter] at hm
    simp only [Bool.and_eq_true, decide_eq_true_eq] at hm
    rcases h with h | h
    · exact hm.2.1.1 h
    · exact hm.2.1.2 h
  · rw [day4_personalized_eligible, List.mem_filter] at hm
    simp only [Bool.and_eq_true, decide_eq_true_eq] at hm
    rcases h with h | h
    · exact hm.2.1.1 h
    · exact hm.2.1.2 h

/-- Witness for C3: a concrete store in which the demo contact's email
has bounced, so it is in neither eligible list. -/
theorem bounced_unsubscribed_never_eligible_witness :
    demo_contact ∉ day3_followup_eligible
      { campaign_data with contacts := [demo_contact], bounced := ["john.doe@example.com"] }
    ∧ demo_contact ∉ day4_personalized_eligible
      { campaign_data with contacts := [demo_contact], bounced := ["john.doe@example.com"] } :=
  bounced_unsubscribed_never_eligible
    { campaign_data with contacts := [demo_contact], bounced := ["john.doe@example.com"] }
    demo_contact (Or.inl (by decide))

/-- Erasing the timestamp of one timed simulated response recovers the
untimed simulation, with the same random-counter advance, for every
clock stream and clock counter. -/
theorem simulate_fetch_one_timed_erase (g : Nat → ℚ) (c : Nat → Nat) (clock : Nat → ℚ)
    (e : String) (k u : Nat) :
    (simulate_fetch_one_timed g c clock e k u).1.map erase_timestamp
      = (simulate_fetch_one g c e k).1
    ∧ (simulate_fetch_one_timed g c clock e k u).2.1 = (simulate_fetch_one g c e k).2 := by
  by_cases h1 : g k < mkRat 5 100
  · simp [simulate_fetch_one_timed, simulate_fetch_one, h1, erase_timestamp]
  · by_cases h2 : g (k + 1) < mkRat 3 100
    · simp [simulate_fetch_one_timed, simulate_fetch_one, h1, h2, erase_timestamp]
    · by_cases h3 : g (k + 2) < mkRat 1 10
      · by_cases h4 : g (k + 3) < mkRat 3 10
        · simp [simulate_fetch_one_timed, simulate_fetch_one, h1, h2, h3, h4, erase_timestamp]
        · by_cases h5 : g (k + 4) < mkRat 4 10 <;>
            simp [simulate_fetch_one_timed, simulate_fetch_one, h1, h2, h3, h4, h5,
              erase_timestamp]
      · simp [simulate_fetch_one_timed, simulate_fetch_one, h1, h2, h3]

/-- Erasing the timestamps of a timed fetching pass recovers the
untimed pass: the timestamps are exactly the clock-dependent part. -/
theorem simulate_fetch_responses_timed_erase (g : Nat → ℚ) (c : Nat → Nat)
    (clock : Nat → ℚ) (emails : List String) : ∀ k u,
    (simulate_fetch_responses_timed g c clock emails k u).1.map erase_timestamp
      = (simulate_fetch_responses g c emails k).1 := by
  induction emails with
  | nil =>
    intro k u
    simp [simulate_fetch_responses_timed, simulate_fetch_responses]
  | cons e rest ih =>
    intro k u
    obtain ⟨h1, h2⟩ := simulate_fetch_one_timed_erase g c clock e k u
    simp only [simulate_fetch_responses_timed, simulate_fetch_responses]
    cases hp : (simulate_fetch_one_timed g c clock e k u).1 with
    | none =>
      have hu : (simulate_fetch_one g c e k).1 = none := by
        rw [← h1, hp]; rfl
      simp only [hp, hu, h2]
      exact ih _ _
    | some r =>
      have hu : (simulate_fetch_one g c e k).1 = some (erase_timestamp r) := by
        rw [← h1, hp]; rfl
      simp only [hp, hu, h2, List.map_cons]
      rw [ih _ _]

/-- Erasing the timestamps of a timed processing pass recovers the
untimed processing pass. -/
theorem process_responses_timed_erase (g : Nat → ℚ) (c : Nat → Nat) (clock : Nat → ℚ)
    (emails : List String) (k u : Nat) :
    (process_responses_timed g c clock emails k u).1.map erase_timestamp
      = (process_responses g c emails k).1 := by
  have hkeep : ∀ r : TimedResponse,
      process_one_keep_timed r = process_one_keep (erase_timestamp r) := by
    intro r; cases r <;> rfl
  simp only [process_responses_timed, process_responses]
  rw [← simulate_fetch_responses_timed_erase g c clock emails k u, List.filter_map]
  exact congrArg (List.map erase_timestamp) (List.filter_congr (fun r _ => hkeep r))

/-- C4 counterexample: every response dict carries a `time.time()`
wall-clock timestamp, which is not determined by the random seed, the
rates or the input.  Two runs with the same seed streams and the same
input but different clock readings — as any two real runs have —
produce different raw and classified response lists, refuting
"identical classified response lists" as literally stated. -/
theorem classification_timestamp_counterexample :
    (simulate_fetch_responses_timed (fun _ => 0) (fun _ => 0) (fun _ => 0) ["a@b.com"] 0 0).1
      ≠ (simulate_fetch_responses_timed (fun _ => 0) (fun _ => 0) (fun _ => 1) ["a@b.com"] 0 0).1
    ∧ (process_responses_timed (fun _ => 0) (fun _ => 0) (fun _ => 0) ["a@b.com"] 0 0).1
      ≠ (process_responses_timed (fun _ => 0) (fun _ => 0) (fun _ => 1) ["a@b.com"] 0 0).1 := by
  decide

/-- C4 amended: two runs of the classification with the same random
draw streams and the same (hard-coded) rates on the same input produce
raw and classified response lists that are identical after erasing the
per-response wall-clock `timestamp` field — every seed-determined
component (length, order, email, status, reason, content, flags)
coincides; only the timestamps, read from the wall clock, may differ
between the runs. -/
theorem classification_deterministic_up_to_timestamps (g : Nat → ℚ) (c : Nat → Nat)
    (clock1 clock2 : Nat → ℚ) (emails : List String) (k u1 u2 : Nat) :
    (simulate_fetch_responses_timed g c clock1 emails k u1).1.map erase_timestamp
      = (simulate_fetch_responses_timed g c clock2 emails k u2).1.map erase_timestamp
    ∧ (process_responses_timed g c clock1 emails k u1).1.map erase_timestamp
      = (process_responses_timed g c clock2 emails k u2).1.map erase_timestamp := by
  constructor
  · rw [simulate_fetch_responses_timed_erase, simulate_fetch_responses_timed_erase]
  · rw [process_responses_timed_erase, process_responses_timed_erase]

/-- C5 counterexample: the senders keep no record of prior outreach
events and skip nothing — calling `send_followup_emails` twice on the
same one-contact list produces an acknowledgement id (a send) on the
second call as well, for a total of two outreach events instead of the
claimed one. -/
theorem send_followup_twice_sends_twice :
    followup_send_second.1.length = 1
    ∧ followup_send_first.1.length + followup_send_second.1.length = 2 := by
  decide

/-- C5 amended: `send_initial_emails` and `send_followup_emails` send
one email (one acknowledgement id) per contact of the list they are
given, unconditionally — they never skip a contact for its status or
for an existing outreach event, and never error. -/
theorem send_emails_one_ack_per_contact (idg : Nat → Nat) (contacts : List Contact) (k : Nat) :
    (send_initial_emails idg contacts k).1.length = contacts.length
    ∧ (send_followup_emails idg contacts k).1.length = contacts.length := by
  induction contacts generalizing k with
  | nil => simp [send_initial_emails, send_followup_emails]
  | cons ct rest ih =>
    refine ⟨?_, ?_⟩
    · simpa [send_initial_emails] using (ih _).1
    · simpa [send_followup_emails] using (ih _).2

/-- C1 counterexample: `check_responses` re-processes the full
`sent_initial` list on every invocation with no terminal-status or
event-history guard.  With the periodic interested-reply draw stream,
the single contact is classified interested by the first invocation
(appended to `replied` and `interested`, Notifier and Booker invoked)
and then classified and notified again by the second invocation: after
two response checks it appears twice in `interested` and twice in
`replied`, and the Notifier and Booker have each been invoked twice for
it — refuting "at most once across arbitrarily many invocations" and
"already-classified contacts are never reclassified". -/
theorem check_responses_reclassifies_counterexample :
    check_run1.notified = ["john.doe@example.com"]
    ∧ check_run1.book_calls = ["john.doe@example.com"]
    ∧ check_run1.state.replied = ["john.doe@example.com"]
    ∧ check_run2.notified = ["john.doe@example.com"]
    ∧ check_run2.book_calls = ["john.doe@example.com"]
    ∧ check_run2.state.interested = ["john.doe@example.com", "john.doe@example.com"]
    ∧ check_run2.state.replied = ["john.doe@example.com", "john.doe@example.com"] := by
  decide

/-- C1 amended: within a single invocation of `check_responses` on a
store whose `sent_initial` list is duplicate-free, each contact is
appended to `interested` at most once and the Notifier and the Booker
are each invoked at most once for it; the code offers no protection
across invocations (a later response check may reclassify and re-notify
an already-classified contact). -/
theorem check_responses_single_call_at_most_once (g : Nat → ℚ) (c : Nat → Nat)
    (book : Nat → Bool) (s : CampaignData) (k j : Nat) (e : String)
    (h : s.sent_initial.Nodup) :
    (check_responses g c book s k j).notified.count e ≤ 1
    ∧ (check_responses g c book s k j).book_calls.count e ≤ 1
    ∧ (check_responses g c book s k j).state.interested.count e
        ≤ s.interested.count e + 1 := by
  have hsent : s.sent_initial.count e ≤ 1 := List.nodup_iff_count_le_one.mp h e
  have hraw := simulate_countP_le g c s.sent_initial k e
  have hproc := process_countP_le g c s.sent_initial k e
  obtain ⟨h1, h2, h3⟩ :=
    handle_counts_le book s (process_responses g c s.sent_initial k).1 j e
  refine ⟨?_, ?_, ?_⟩ <;> simp only [check_responses] <;> omega

/-- Witness for C1 amended: the one-contact store has a duplicate-free
`sent_initial` list, and the first response check notifies its contact
at most once. -/
theorem check_responses_single_call_at_most_once_witness :
    (check_responses reply_stream (fun _ => 0) (fun _ => false) one_contact_state 0 0).notified.count
        "john.doe@example.com" ≤ 1
    ∧ (check_responses reply_stream (fun _ => 0) (fun _ => false) one_contact_state 0 0).book_calls.count
        "john.doe@example.com" ≤ 1 :=
  ⟨(check_responses_single_call_at_most_once reply_stream (fun _ => 0) (fun _ => false)
      one_contact_state 0 0 "john.doe@example.com" (by decide)).1,
   (check_responses_single_call_at_most_once reply_stream (fun _ => 0) (fun _ => false)
      one_contact_state 0 0 "john.doe@example.com" (by decide)).2.1⟩

/-- C9: the containment `meetings_booked ⊆ interested ⊆ replied` holds
for the initial store and is preserved by every invocation of
`check_responses`: an email is appended to `interested` only in the
branch that has just appended it to `replied`, and to `meetings_booked`
only after it was appended to `interested`. -/
theorem check_responses_preserves_containment :
    campaign_inv campaign_data
    ∧ ∀ (g : Nat → ℚ) (c : Nat → Nat) (book : Nat → Bool) (s : CampaignData) (k j : Nat),
      campaign_inv s → campaign_inv (check_responses g c book s k j).state := by
  constructor
  · exact ⟨by simp [campaign_data], by simp [campaign_data]⟩
  · intro g c book s k j hs
    simp only [check_responses]
    exact handle_preserves_inv book s (process_responses g c s.sent_initial k).1 j hs

/-- Witness for C9: the invariant holds after one concrete response
check from the initial store. -/
theorem check_responses_preserves_containment_witness :
    campaign_inv (check_responses reply_stream (fun _ => 0) (fun _ => false)
      campaign_data 0 0).state :=
  check_responses_preserves_containment.2 reply_stream (fun _ => 0) (fun _ => false)
    campaign_data 0 0
    ⟨by simp [campaign_data], by simp [campaign_data]⟩

/-- C8: an out-of-office reply is dropped by the processing loop for
that response cycle (it never reaches the handler), so a contact all of
whose fetched responses are out-of-office replies is added to no bucket
— its membership in each of the five status buckets is unchanged — and
it is not excluded from follow-up eligibility beyond that cycle: it is
still in the eligible list of both later stage sends. -/
theorem ooo_reply_no_status_change (g : Nat → ℚ) (c : Nat → Nat) (book : Nat → Bool)
    (s : CampaignData) (k j : Nat) (ct : Contact)
    (h1 : ct ∈ day3_followup_eligible s)
    (h2 : ∀ r ∈ (simulate_fetch_responses g c s.sent_initial k).1,
      respEmail r = ct.email → isOOOReply r = true) :
    (∀ r ∈ (process_responses g c s.sent_initial k).1, respEmail r ≠ ct.email)
    ∧ ct ∈ day3_followup_eligible (check_responses g c book s k j).state
    ∧ ct ∈ day4_personalized_eligible (check_responses g c book s k j).state
    ∧ (ct.email ∈ (check_responses g c book s k j).state.bounced ↔ ct.email ∈ s.bounced)
    ∧ (ct.email ∈ (check_responses g c book s k j).state.unsubscribed ↔ ct.email ∈ s.unsubscribed)
    ∧ (ct.email ∈ (check_responses g c book s k j).state.replied ↔ ct.email ∈ s.replied)
    ∧ (ct.email ∈ (check_responses g c book s k j).state.interested ↔ ct.email ∈ s.interested)
    ∧ (ct.email ∈ (check_responses g c book s k j).state.meetings_booked
        ↔ ct.email ∈ s.meetings_booked) := by
  have hproc : ∀ r ∈ (process_responses g c s.sent_initial k).1, respEmail r ≠ ct.email := by
    intro r hr heq
    obtain ⟨hraw, hkeep⟩ := process_mem_keep hr
    have hooo := h2 r hraw heq
    rw [process_one_keep_eq, hooo] at hkeep
    simp at hkeep
  obtain ⟨hbm, hum, hrm, him, hmm⟩ :=
    handle_unmentioned_email book s (process_responses g c s.sent_initial k).1 j
      ct.email hproc
  obtain ⟨hcon, hsent⟩ :=
    handle_contacts_sent_eq book s (process_responses g c s.sent_initial k).1 j
  rw [day3_followup_eligible, List.mem_filter] at h1
  simp only [Bool.and_eq_true, decide_eq_true_eq] at h1
  obtain ⟨hctm, ⟨hnb, hnu⟩, hnr⟩ := h1
  refine ⟨hproc, ?_, ?_, ?_, ?_, ?_, ?_, ?_⟩ <;> simp only [check_responses]
  · rw [day3_followup_eligible, List.mem_filter]
    refine ⟨by rw [hcon]; exact hctm, ?_⟩
    simp only [Bool.and_eq_true, decide_eq_true_eq]
    exact ⟨⟨fun hx => hnb (hbm.mp hx), fun hx => hnu (hum.mp hx)⟩,
      fun hx => hnr (hrm.mp hx)⟩
  · rw [day4_personalized_eligible, List.mem_filter]
    refine ⟨by rw [hcon]; exact hctm, ?_⟩
    simp only [Bool.and_eq_true, decide_eq_true_eq]
    exact ⟨⟨fun hx => hnb (hbm.mp hx), fun hx => hnu (hum.mp hx)⟩,
      fun hx => hnr (hrm.mp hx)⟩
  · exact hbm
  · exact hum
  · exact hrm
  · exact him
  · exact hmm

/-- Witness for C8: with a draw stream that always produces an
out-of-office reply (bounce and unsubscribe draws fail, reply and
out-of-office draws succeed), the single eligible contact keeps all its
bucket memberships and stays in the day-3 eligible list. -/
theorem ooo_reply_no_status_change_witness :
    demo_contact ∈ day3_followup_eligible
      (check_responses ooo_stream (fun _ => 0) (fun _ => false) one_contact_state 0 0).state :=
  (ooo_reply_no_status_change ooo_stream (fun _ => 0) (fun _ => false) one_contact_state 0 0
    demo_contact (by decide) (by decide)).2.1

/-- C6 counterexample: with a non-`None` but empty role list, the
`any(...)` over an empty list is false for every contact, so
`find_companies_and_contacts` returns no contacts at all — although the
matched manufacturing companies do have contacts (the `None` call
returns a non-empty list) — refuting "empty or absent: all contacts
pass". -/
theorem find_contacts_empty_role_filter_counterexample :
    find_companies_and_contacts "manufacturing" "Australia" (some []) = []
    ∧ find_companies_and_contacts "manufacturing" "Australia" none ≠ [] := by
  decide

/-- C6 amended: when the role filter is absent (`None`) every contact of
the matched companies passes; when a role list is given — empty or not —
a contact is returned exactly when some requested role is a
case-insensitive substring of its role, so an empty list returns no
contacts.  Equivalently, the some-roles result is the `None` result
filtered by the role predicate. -/
theorem find_contacts_role_filter_eq (kw region : String) (roles : List String) :
    find_companies_and_contacts kw region (some roles)
      = (find_companies_and_contacts kw region none).filter
          (fun ct => roles.any fun role => py_in role ct.role)
    ∧ ∀ ct, ct ∈ find_companies_and_contacts kw region (some roles)
        ↔ ct ∈ find_companies_and_contacts kw region none
          ∧ (roles.any fun role => py_in role ct.role) = true := by
  have key : find_companies_and_contacts kw region (some roles)
      = (find_companies_and_contacts kw region none).filter
          (fun ct => roles.any fun role => py_in role ct.role) := by
    simp only [find_companies_and_contacts, List.filter_flatMap, List.filter_map,
      List.filter_true]
    rfl
  exact ⟨key, fun ct => by rw [key, List.mem_filter]⟩

/-- C7: `format_email_from_template` returns the unknown-template error
exactly when the template name is not one of `initial`, `followup`,
`personalized`; and for registered templates absent optional fields do
not make it fail: a missing `recent_news` is replaced by the generic
recency phrase `"is in the <industry> sector"`, a missing `interests`
by the single-element list `["digital transformation"]`, and every
registered template then renders successfully. -/
theorem format_email_unknown_and_defaults (template_name : String) (contact : Contact) :
    (format_email_from_template template_name contact
        = .error ("Unknown template: " ++ template_name)
      ↔ template_name ∉ (["initial", "followup", "personalized"] : List String))
    ∧ (contact.recent_news = none →
        format_email_from_template "initial" contact
          = .ok (render_initial contact.company contact.industry contact.contact_name
              ("is in the " ++ contact.industry ++ " sector")))
    ∧ (contact.interests = none →
        format_email_from_template "personalized" contact
          = .ok (render_personalized contact.company contact.industry contact.contact_name
              contact.role "digital transformation"))
    ∧ (∀ name ∈ (["initial", "followup", "personalized"] : List String),
        contact.recent_news = none → contact.interests = none →
        ∃ s, format_email_from_template name contact = .ok s) := by
  refine ⟨?_, ?_, ?_, ?_⟩
  · by_cases h1 : template_name = "initial"
    · subst h1
      simp [format_email_from_template]
    · by_cases h2 : template_name = "followup"
      · subst h2
        simp [format_email_from_template]
      · by_cases h3 : template_name = "personalized"
        · subst h3
          cases hin : contact.interests with
          | none => simp [format_email_from_template, hin]
          | some l =>
            cases l with
            | nil => simp [format_email_from_template, hin]
            | cons i0 t => simp [format_email_from_template, hin]
        · simp [format_email_from_template, h1, h2, h3]
  · intro hrn
    simp [format_email_from_template, hrn]
  · intro hin
    simp [format_email_from_template, hin]
  · intro name hname hrn hin
    fin_cases hname
    · exact ⟨render_initial contact.company contact.industry contact.contact_name
        ("is in the " ++ contact.industry ++ " sector"),
        by simp [format_email_from_template, hrn, hin]⟩
    · exact ⟨render_followup contact.company contact.company_size contact.industry
        contact.contact_name, by simp [format_email_from_template, hrn, hin]⟩
    · exact ⟨render_personalized contact.company contact.industry contact.contact_name
        contact.role "digital transformation",
        by simp [format_email_from_template, hrn, hin]⟩

/-- Witness for C7: the demo contact has neither optional field, and
each registered template renders for it. -/
theorem format_email_unknown_and_defaults_witness :
    ∃ s, format_email_from_template "personalized" demo_contact = .ok s :=
  (format_email_unknown_and_defaults "personalized" demo_contact).2.2.2
    "personalized" (by simp) rfl rfl

/-- Adding minutes adds exactly that amount to the minute count and
keeps the seconds. -/
theorem toMinutes_addMinutes (d : DateTime) (m : Nat) :
    (d.addMinutes m).toMinutes = d.toMinutes + m ∧ (d.addMinutes m).second = d.second := by
  refine ⟨?_, rfl⟩
  simp only [DateTime.addMinutes, DateTime.toMinutes]
  omega

/-- Every slot of the inner hour loop starts at one of the candidate
hours of the given date, with minutes and seconds zeroed. -/
theorem slots_for_day_mem {g : Nat → ℚ} {date : DateTime} {hours : List Nat} {k : Nat}
    {sl : Slot} (h : sl ∈ (slots_for_day g date hours k).1) :
    ∃ hr ∈ hours, sl = mk_slot { date with hour := hr, minute := 0, second := 0 } := by
  induction hours generalizing k with
  | nil => simp [slots_for_day] at h
  | cons h0 rest ih =>
    simp only [slots_for_day] at h
    by_cases hav : mkRat 3 10 < g k
    · rw [if_pos hav] at h
      rcases List.mem_cons.mp h with h | h
      · exact ⟨h0, List.mem_cons_self _ _, h⟩
      · obtain ⟨hr, hhr, heq⟩ := ih h
        exact ⟨hr, List.mem_cons_of_mem _ hhr, heq⟩
    · rw [if_neg hav] at h
      obtain ⟨hr, hhr, heq⟩ := ih h
      exact ⟨hr, List.mem_cons_of_mem _ hhr, heq⟩

/-- Every slot of the outer day loop comes from a weekday date at one of
the candidate hours. -/
theorem slots_loop_mem {g : Nat → ℚ} {now : DateTime} {days : List Nat} {ds k : Nat}
    {sl : Slot} (h : sl ∈ (slots_loop g now days ds k).1) :
    ∃ d ∈ days, (now.day + d) % 7 < 5 ∧ ∃ hr ∈ pyRange 9 17 (8 / ds),
      sl = mk_slot ⟨now.day + d, hr, 0, 0⟩ := by
  induction days generalizing k with
  | nil => simp [slots_loop] at h
  | cons d0 rest ih =>
    simp only [slots_loop] at h
    by_cases hw : 5 ≤ ({ now with day := now.day + d0 } : DateTime).weekday
    · rw [if_pos hw] at h
      obtain ⟨d, hd, hlt, hr, hhr, heq⟩ := ih h
      exact ⟨d, List.mem_cons_of_mem _ hd, hlt, hr, hhr, heq⟩
    · rw [if_neg hw] at h
      rcases List.mem_append.mp h with h | h
      · obtain ⟨hr, hhr, heq⟩ := slots_for_day_mem h
        refine ⟨d0, List.mem_cons_self _ _, ?_, hr, hhr, heq⟩
        simp only [DateTime.weekday] at hw
        omega
      · obtain ⟨d, hd, hlt, hr, hhr, heq⟩ := ih h
        exact ⟨d, List.mem_cons_of_mem _ hd, hlt, hr, hhr, heq⟩

/-- C10: with the default arguments, every slot returned by
`find_available_slots` starts on a weekday (Monday through Friday), at a
whole hour between 9 and 16 with zero minutes and seconds, and ends
exactly 30 minutes after its start, for every availability draw
sequence and every current datetime. -/
theorem find_available_slots_shape (g : Nat → ℚ) (now : DateTime) :
    ∀ sl ∈ find_available_slots g now,
      sl.start_time.weekday < 5
      ∧ 9 ≤ sl.start_time.hour ∧ sl.start_time.hour ≤ 16
      ∧ sl.start_time.minute = 0 ∧ sl.start_time.second = 0
      ∧ sl.end_time.toMinutes = sl.start_time.toMinutes + 30
      ∧ sl.end_time.second = 0 := by
  intro sl hmem
  rw [find_available_slots] at hmem
  obtain ⟨d, hd, hw, hr, hhr, heq⟩ := slots_loop_mem hmem
  have hlist : pyRange 9 17 (8 / 3) = [9, 11, 13, 15] := by decide
  rw [hlist] at hhr
  subst heq
  have hhr2 : hr = 9 ∨ hr = 11 ∨ hr = 13 ∨ hr = 15 := by simpa using hhr
  refine ⟨hw, ?_, ?_, rfl, rfl, (toMinutes_addMinutes _ 30).1, rfl⟩ <;>
    simp only [mk_slot] <;> omega

/-- Witness for C10: a concrete draw stream making exactly the first
candidate slot available; the returned slot (Tuesday after a Monday
epoch, 9:00-9:30) satisfies all the shape constraints. -/
theorem find_available_slots_shape_witness :
    (mk_slot ⟨1, 9, 0, 0⟩).start_time.weekday < 5
    ∧ 9 ≤ (mk_slot ⟨1, 9, 0, 0⟩).start_time.hour
    ∧ (mk_slot ⟨1, 9, 0, 0⟩).start_time.hour ≤ 16
    ∧ (mk_slot ⟨1, 9, 0, 0⟩).start_time.minute = 0
    ∧ (mk_slot ⟨1, 9, 0, 0⟩).start_time.second = 0
    ∧ (mk_slot ⟨1, 9, 0, 0⟩).end_time.toMinutes
        = (mk_slot ⟨1, 9, 0, 0⟩).start_time.toMinutes + 30
    ∧ (mk_slot ⟨1, 9, 0, 0⟩).end_time.second = 0 :=
  find_available_slots_shape (fun k => if k = 0 then 1 else 0) ⟨0, 0, 0, 0⟩
    (mk_slot ⟨1, 9, 0, 0⟩) (by decide)
